import Mathlib

/-!
Verification of the alphahuman inter-skill interop layer
(`src/dev/runtime/interop.py` and `src/dev/types/interop_types.py`).

The Python runtime is shallowly embedded: dicts become association lists,
`async` handlers become pure Lean functions, a raised exception becomes
`Except.error`, and each dispatch function additionally returns the list
of hook/handler invocation events it performed, so that "the handler is
invoked exactly once with these arguments" is a provable statement.
-/

set_option autoImplicit false

namespace Interop

/-- JSON-like runtime values, standing in for Python `Any` payloads. -/
inductive Val where
  | str : String → Val
  | nat : Nat → Val
  | bool : Bool → Val
  | arr : List Val → Val
  | obj : List (String × Val) → Val

/-- Python `dict[str, Any]`, as an association list. -/
abbrev Dict := List (String × Val)

/-- The opaque per-request context produced by `server._create_context()`. -/
abbrev Ctx := Nat

/-- One entry of the `visibility` list (`Literal["skills", "frontend"]`
from `interop_types.py`). -/
inductive Vis where
  | skills : Vis
  | frontend : Vis
deriving DecidableEq

/-- `ExposedDataDefinition` from `interop_types.py`: a named data endpoint
with visibility annotation, advisory schema and an async handler
`(ctx, params) -> dict`. -/
structure ExposedDataDefinition where
  name : String
  description : String
  visibility : List Vis := []
  schema_ : Dict := []
  handler : Ctx → Dict → Val

/-- `ExposedFunctionDefinition` from `interop_types.py`. -/
structure ExposedFunctionDefinition where
  name : String
  description : String
  visibility : List Vis := []
  parameters : Dict := []
  returns : Dict := []
  handler : Ctx → Dict → Val

/-- An interop hook callback `(ctx, caller_skill_id, name, payload) -> dict | None`;
`none` means "defer to the registry", `some v` short-circuits. -/
abbrev HookFn := Ctx → String → String → Dict → Option Val

/-- The optional hook pair a skill may register (`hooks.on_interop_data`,
`hooks.on_interop_call`; each may independently be absent). -/
structure Hooks where
  on_interop_data : Option HookFn := none
  on_interop_call : Option HookFn := none

/-- The slice of the skill server object consumed by the dispatch helpers:
`server._hooks`, `server._exposed_data`, `server._exposed_functions`
(dicts keyed by name), and `server._create_context()`. -/
structure Server where
  hooks : Option Hooks := none
  exposed_data : List (String × ExposedDataDefinition) := []
  exposed_functions : List (String × ExposedFunctionDefinition) := []
  createContext : Ctx := 0

/-- The data hook that will actually run: present exactly when
`server._hooks` is set and `hooks.on_interop_data` is set
(Python: `if hooks and hooks.on_interop_data`). -/
def dataHookOf (s : Server) : Option HookFn :=
  s.hooks.bind Hooks.on_interop_data

/-- The call hook that will actually run (Python:
`if hooks and hooks.on_interop_call`). -/
def callHookOf (s : Server) : Option HookFn :=
  s.hooks.bind Hooks.on_interop_call

/-- Invocation events recorded by the embedded dispatch: which hook or
registered handler ran, and with which arguments. -/
inductive Event where
  | hookData (ctx : Ctx) (caller name : String) (payload : Dict)
  | hookCall (ctx : Ctx) (caller name : String) (payload : Dict)
  | dataHandler (name : String) (ctx : Ctx) (payload : Dict)
  | funcHandler (name : String) (ctx : Ctx) (payload : Dict)

/-- Whether an event is a registered-handler invocation (as opposed to a
hook invocation). -/
def Event.isHandler : Event → Bool
  | .dataHandler _ _ _ => true
  | .funcHandler _ _ _ => true
  | _ => false

/-- The registered-handler invocations within a trace. -/
def handlerEvents (t : List Event) : List Event :=
  t.filter Event.isHandler

/-- Inbound `interop/getData` payload `{callerSkillId, dataName, params?}`;
`none` models an omitted key. -/
structure GetDataRequest where
  callerSkillId : Option String := none
  dataName : Option String := none
  params : Option Dict := none

/-- Inbound `interop/callFunction` payload
`{callerSkillId, functionName, arguments?}`. -/
structure CallFunctionRequest where
  callerSkillId : Option String := none
  functionName : Option String := none
  arguments : Option Dict := none

/-- The registry fall-through of `handle_get_data` (the code below the
`# Fall through to registered handler` comment): look `data_name` up in
`server._exposed_data`, raise `ValueError("Unknown data endpoint: ...")`
when absent, otherwise invoke the handler and wrap its result as
`{"data": result}`.  `evs` is the trace accumulated by the hook phase. -/
def getDataFallback (server : Server) (data_name : String) (request_params : Dict)
    (evs : List Event) : Except String Dict × List Event :=
  match server.exposed_data.lookup data_name with
  | none => (Except.error ("Unknown data endpoint: " ++ data_name), evs)
  | some endpoint =>
    let ctx := server.createContext
    (Except.ok [("data", endpoint.handler ctx request_params)],
     evs ++ [Event.dataHandler data_name ctx request_params])

/-- `handle_get_data(server, params)` from `interop.py`: default the
missing payload fields (`callerSkillId` → `""`, `dataName` → `""`,
`params` → `{}`), run the optional data hook first and short-circuit on a
non-`None` hook result, else fall through to the registry. -/
def handle_get_data (server : Server) (req : GetDataRequest) :
    Except String Dict × List Event :=
  let caller_skill_id := req.callerSkillId.getD ""
  let data_name := req.dataName.getD ""
  let request_params := req.params.getD []
  match dataHookOf server with
  | some hook =>
    let ctx := server.createContext
    let ev := Event.hookData ctx caller_skill_id data_name request_params
    match hook ctx caller_skill_id data_name request_params with
    | some hook_result => (Except.ok [("data", hook_result)], [ev])
    | none => getDataFallback server data_name request_params [ev]
  | none => getDataFallback server data_name request_params []

/-- The registry fall-through of `handle_call_function`: look
`function_name` up in `server._exposed_functions`, raise
`ValueError("Unknown function: ...")` when absent, otherwise invoke the
handler and wrap its result as `{"data": result}`. -/
def callFunctionFallback (server : Server) (function_name : String) (arguments : Dict)
    (evs : List Event) : Except String Dict × List Event :=
  match server.exposed_functions.lookup function_name with
  | none => (Except.error ("Unknown function: " ++ function_name), evs)
  | some func =>
    let ctx := server.createContext
    (Except.ok [("data", func.handler ctx arguments)],
     evs ++ [Event.funcHandler function_name ctx arguments])

/-- `handle_call_function(server, params)` from `interop.py`, symmetric to
`handle_get_data` with the function registry and the call hook. -/
def handle_call_function (server : Server) (req : CallFunctionRequest) :
    Except String Dict × List Event :=
  let caller_skill_id := req.callerSkillId.getD ""
  let function_name := req.functionName.getD ""
  let arguments := req.arguments.getD []
  match callHookOf server with
  | some hook =>
    let ctx := server.createContext
    let ev := Event.hookCall ctx caller_skill_id function_name arguments
    match hook ctx caller_skill_id function_name arguments with
    | some hook_result => (Except.ok [("data", hook_result)], [ev])
    | none => callFunctionFallback server function_name arguments [ev]
  | none => callFunctionFallback server function_name arguments []

/-- A field value inside a `listExposed` discovery entry: a string, a
visibility list, or an opaque schema dict (the core stores and forwards
schemas without interpreting them). -/
inductive InfoField where
  | str : String → InfoField
  | vis : List Vis → InfoField
  | dict : Dict → InfoField

/-- One discovery entry of the `listExposed` response, as the keyed dict
the source builds literally. -/
abbrev InfoEntry := List (String × InfoField)

/-- The keys of a discovery entry. -/
def entryKeys (e : InfoEntry) : List String :=
  e.map Prod.fst

/-- The dict `handle_list_exposed` builds for one exposed data endpoint:
`{"name": ..., "description": ..., "visibility": ..., "schema": ...}`. -/
def dataEntryInfo (d : ExposedDataDefinition) : InfoEntry :=
  [("name", InfoField.str d.name),
   ("description", InfoField.str d.description),
   ("visibility", InfoField.vis d.visibility),
   ("schema", InfoField.dict d.schema_)]

/-- The dict `handle_list_exposed` builds for one exposed function:
`{"name": ..., "description": ..., "visibility": ..., "parameters": ...,
"returns": ...}`. -/
def functionEntryInfo (f : ExposedFunctionDefinition) : InfoEntry :=
  [("name", InfoField.str f.name),
   ("description", InfoField.str f.description),
   ("visibility", InfoField.vis f.visibility),
   ("parameters", InfoField.dict f.parameters),
   ("returns", InfoField.dict f.returns)]

/-- The `{"data": [...], "functions": [...]}` response of
`interop/listExposed`. -/
structure ListExposedResult where
  data : List InfoEntry
  functions : List InfoEntry

/-- `handle_list_exposed(server)` from `interop.py`: project every value of
`server._exposed_data` / `server._exposed_functions` to its discovery
entry. -/
def handle_list_exposed (server : Server) : ListExposedResult :=
  { data := (server.exposed_data.map Prod.snd).map dataEntryInfo,
    functions := (server.exposed_functions.map Prod.snd).map functionEntryInfo }

/-! ### Outbound tool set (`build_interop_tools`) -/

/-- `ToolResult` from `skill_types`: textual content plus an error flag
(the flag defaults to false). -/
structure ToolResult where
  content : String
  is_error : Bool := false
deriving DecidableEq

/-- Python's `"x" == ""` test via truthiness (`if not skill_id`). -/
def strFalsy (s : String) : Bool :=
  s == ""

/-- `json.dumps(v, indent=2)` stand-in: a plain JSON rendering of a value.
Its exact text is irrelevant to the properties below; it only matters
that success results are the serialized collaborator answer. -/
def jsonDumps : Val → String
  | .str s => "\"" ++ s ++ "\""
  | .nat n => toString n
  | .bool true => "true"
  | .bool false => "false"
  | .arr vs => "[" ++ String.intercalate ", " (vs.attach.map fun x => jsonDumps x.1) ++ "]"
  | .obj kvs =>
    "\x7b" ++
      String.intercalate ", "
        (kvs.attach.map fun x => "\"" ++ x.1.1 ++ "\": " ++ jsonDumps x.1.2) ++
    "\x7d"
decreasing_by
  · have := List.sizeOf_lt_of_mem x.2
    simp at this ⊢
    omega
  · rcases x with ⟨⟨k, v⟩, hx⟩
    have := List.sizeOf_lt_of_mem hx
    simp at this ⊢
    omega

/-- One call made to the host `SkillsManager` collaborator (the `server`
object the outbound tools close over). -/
inductive HostCall where
  | listSkills
  | listExposedData (skillId : Option String)
  | listExposedFunctions (skillId : Option String)
  | requestSkillData (skillId dataName : String) (params : Option Dict)
  | callSkillFunction (skillId functionName : String) (arguments : Option Dict)

/-- The host collaborator the five outbound tools delegate to.  Each
method either answers with a value or raises (`Except.error` carries
`str(exc)`). -/
structure HostServer where
  list_skills : Except String Val
  list_exposed_data : Option String → Except String Val
  list_exposed_functions : Option String → Except String Val
  request_skill_data : String → String → Option Dict → Except String Val
  call_skill_function : String → String → Option Dict → Except String Val

/-- The argument dict an outbound tool receives; `none` models an omitted
key. -/
structure ToolArgs where
  skill_id : Option String := none
  data_name : Option String := none
  function_name : Option String := none
  params : Option Dict := none
  arguments : Option Dict := none

/-- An outbound tool outcome: `Except.ok` is a returned `ToolResult`,
`Except.error` is an exception that escaped the tool, paired with the
calls the tool made to the collaborator. -/
abbrev ToolOutcome := Except String ToolResult × List HostCall

/-- Did the tool return a structured result (as opposed to letting an
exception propagate to its caller)? -/
def returnedResult (r : ToolOutcome) : Bool :=
  match r.1 with
  | .ok _ => true
  | .error _ => false

/-- `_list_skills` from `build_interop_tools`: `await server.list_skills()`
with no exception handling, serialized on success. -/
def list_skills_tool (server : HostServer) (_args : ToolArgs) : ToolOutcome :=
  match server.list_skills with
  | .ok result => (Except.ok { content := jsonDumps result }, [HostCall.listSkills])
  | .error exc => (Except.error exc, [HostCall.listSkills])

/-- `_list_skill_data`: pass the optional `skill_id` through, no exception
handling. -/
def list_skill_data_tool (server : HostServer) (args : ToolArgs) : ToolOutcome :=
  let skill_id := args.skill_id
  match server.list_exposed_data skill_id with
  | .ok result => (Except.ok { content := jsonDumps result }, [HostCall.listExposedData skill_id])
  | .error exc => (Except.error exc, [HostCall.listExposedData skill_id])

/-- `_list_skill_functions`: pass the optional `skill_id` through, no
exception handling. -/
def list_skill_functions_tool (server : HostServer) (args : ToolArgs) : ToolOutcome :=
  let skill_id := args.skill_id
  match server.list_exposed_functions skill_id with
  | .ok result =>
    (Except.ok { content := jsonDumps result }, [HostCall.listExposedFunctions skill_id])
  | .error exc => (Except.error exc, [HostCall.listExposedFunctions skill_id])

/-- `_request_skill_data`: default missing `skill_id`/`data_name` to `""`,
return a local error result when either is falsy (before any collaborator
call), otherwise forward to the host and catch any exception as an error
result carrying `str(exc)`. -/
def request_skill_data_tool (server : HostServer) (args : ToolArgs) : ToolOutcome :=
  let skill_id := args.skill_id.getD ""
  let data_name := args.data_name.getD ""
  let params := args.params
  if strFalsy skill_id || strFalsy data_name then
    (Except.ok { content := "skill_id and data_name are required", is_error := true }, [])
  else
    match server.request_skill_data skill_id data_name params with
    | .ok result =>
      (Except.ok { content := jsonDumps result },
       [HostCall.requestSkillData skill_id data_name params])
    | .error exc =>
      (Except.ok { content := exc, is_error := true },
       [HostCall.requestSkillData skill_id data_name params])

/-- `_call_skill_function`: same shape as `_request_skill_data` with
`function_name`/`arguments`. -/
def call_skill_function_tool (server : HostServer) (args : ToolArgs) : ToolOutcome :=
  let skill_id := args.skill_id.getD ""
  let function_name := args.function_name.getD ""
  let arguments := args.arguments
  if strFalsy skill_id || strFalsy function_name then
    (Except.ok { content := "skill_id and function_name are required", is_error := true }, [])
  else
    match server.call_skill_function skill_id function_name arguments with
    | .ok result =>
      (Except.ok { content := jsonDumps result },
       [HostCall.callSkillFunction skill_id function_name arguments])
    | .error exc =>
      (Except.ok { content := exc, is_error := true },
       [HostCall.callSkillFunction skill_id function_name arguments])

/-! ### Capability-set construction (`interop_types.py`) -/

/-- `InteropSchema` from `interop_types.py`: the frozen pair of exposed
data endpoints and exposed functions declared by a skill. -/
structure InteropSchema where
  exposed_data : List ExposedDataDefinition := []
  exposed_functions : List ExposedFunctionDefinition := []

/-- Construction (pydantic validation) of an `InteropSchema`.  The source
model declares only typed fields — field typing is captured by the Lean
types here — and defines no validator of its own, in particular none
rejecting duplicate `name`s, so validation always succeeds. -/
def mkInteropSchema (d : List ExposedDataDefinition)
    (f : List ExposedFunctionDefinition) : Except String InteropSchema :=
  Except.ok { exposed_data := d, exposed_functions := f }

/-- Did construction succeed? -/
def buildSucceeded (r : Except String InteropSchema) : Bool :=
  match r with
  | .ok _ => true
  | .error _ => false

/-- Whether a list of names is duplicate-free. -/
def namesUnique : List String → Bool
  | [] => true
  | n :: ns => !ns.contains n && namesUnique ns

/-! ### Substring carrying (for error-message claims) -/

/-- Does `hay` start with `needle`? -/
def leadsWith : List Char → List Char → Bool
  | [], _ => true
  | _ :: _, [] => false
  | n :: ns, h :: hs => n == h && leadsWith ns hs

/-- Does `hay` contain `needle` as a contiguous run? -/
def containsSub (needle : List Char) : List Char → Bool
  | [] => leadsWith needle []
  | h :: hs => leadsWith needle (h :: hs) || containsSub needle hs

/-- Does the string `hay` carry the string `needle` (substring test)? -/
def strCarries (needle hay : String) : Bool :=
  containsSub needle.toList hay.toList

/-! ### Hook deferral and helper lemmas -/

/-- The data hook defers on this request: either no data hook runs, or the
hook returns `None` on the request's (defaulted) arguments. -/
def dataHookDefers (s : Server) (req : GetDataRequest) : Prop :=
  ∀ h, dataHookOf s = some h →
    h s.createContext (req.callerSkillId.getD "") (req.dataName.getD "") (req.params.getD []) = none

/-- The call hook defers on this request. -/
def callHookDefers (s : Server) (req : CallFunctionRequest) : Prop :=
  ∀ h, callHookOf s = some h →
    h s.createContext (req.callerSkillId.getD "") (req.functionName.getD "") (req.arguments.getD []) = none

/-- The same server with no hooks registered at all. -/
def noHooks (s : Server) : Server :=
  { s with hooks := none }

theorem getDataFallback_fst (s : Server) (dn : String) (rp : Dict) (evs : List Event) :
    (getDataFallback s dn rp evs).1 = (getDataFallback s dn rp []).1 := by
  unfold getDataFallback
  cases s.exposed_data.lookup dn <;> rfl

theorem getDataFallback_handlerEvents (s : Server) (dn : String) (rp : Dict) (evs : List Event) :
    handlerEvents (getDataFallback s dn rp evs).2 =
      handlerEvents evs ++ handlerEvents (getDataFallback s dn rp []).2 := by
  unfold getDataFallback
  cases s.exposed_data.lookup dn <;> simp [handlerEvents]

theorem callFunctionFallback_fst (s : Server) (fn : String) (fa : Dict) (evs : List Event) :
    (callFunctionFallback s fn fa evs).1 = (callFunctionFallback s fn fa []).1 := by
  unfold callFunctionFallback
  cases s.exposed_functions.lookup fn <;> rfl

theorem callFunctionFallback_handlerEvents (s : Server) (fn : String) (fa : Dict)
    (evs : List Event) :
    handlerEvents (callFunctionFallback s fn fa evs).2 =
      handlerEvents evs ++ handlerEvents (callFunctionFallback s fn fa []).2 := by
  unfold callFunctionFallback
  cases s.exposed_functions.lookup fn <;> simp [handlerEvents]

/-- When the data hook defers (or none is registered), `handle_get_data`
produces the registry fall-through result, and its handler invocations
are the fall-through's. -/
theorem handle_get_data_deferred (s : Server) (req : GetDataRequest)
    (hd : dataHookDefers s req) :
    (handle_get_data s req).1 =
      (getDataFallback s (req.dataName.getD "") (req.params.getD []) []).1 ∧
    handlerEvents (handle_get_data s req).2 =
      handlerEvents (getDataFallback s (req.dataName.getD "") (req.params.getD []) []).2 := by
  cases hdo : dataHookOf s with
  | none => simp [handle_get_data, hdo]
  | some h =>
    have hn := hd h hdo
    constructor
    · simp [handle_get_data, hdo, hn, getDataFallback_fst]
    · simp [handle_get_data, hdo, hn]
      rw [getDataFallback_handlerEvents]
      simp [handlerEvents, Event.isHandler]

/-- When the call hook defers (or none is registered),
`handle_call_function` produces the registry fall-through result. -/
theorem handle_call_function_deferred (s : Server) (req : CallFunctionRequest)
    (hc : callHookDefers s req) :
    (handle_call_function s req).1 =
      (callFunctionFallback s (req.functionName.getD "") (req.arguments.getD []) []).1 ∧
    handlerEvents (handle_call_function s req).2 =
      handlerEvents (callFunctionFallback s (req.functionName.getD "") (req.arguments.getD []) []).2 := by
  cases hco : callHookOf s with
  | none => simp [handle_call_function, hco]
  | some h =>
    have hn := hc h hco
    constructor
    · simp [handle_call_function, hco, hn, callFunctionFallback_fst]
    · simp [handle_call_function, hco, hn]
      rw [callFunctionFallback_handlerEvents]
      simp [handlerEvents, Event.isHandler]

/-! ### C2 -/

/-- C2: for every registered data endpoint `E`, calling `getData` with
`dataName = E.name` when no data hook is registered invokes exactly
`E.handler`, exactly once, with the request's context and params, and
returns `Except.ok` of the dict `[("data", r)]` where `r` is the
handler's result. -/
theorem getData_invokes_registered_handler (s : Server) (req : GetDataRequest)
    (E : ExposedDataDefinition)
    (hhook : dataHookOf s = none)
    (hlook : s.exposed_data.lookup (req.dataName.getD "") = some E) :
    (handle_get_data s req).1 =
      Except.ok [("data", E.handler s.createContext (req.params.getD []))] ∧
    (handle_get_data s req).2 =
      [Event.dataHandler (req.dataName.getD "") s.createContext (req.params.getD [])] := by
  simp [handle_get_data, hhook, getDataFallback, hlook]

/-- The spec's scenario endpoint: data endpoint `"status"` whose handler
returns the dict `{"ok": true}`. -/
def statusEndpoint : ExposedDataDefinition :=
  { name := "status"
    description := "status endpoint"
    visibility := [Vis.skills, Vis.frontend]
    handler := fun _ _ => Val.obj [("ok", Val.bool true)] }

/-- A server exposing only `statusEndpoint`, with no hooks. -/
def statusServer : Server :=
  { exposed_data := [("status", statusEndpoint)] }

/-- The spec's scenario request
`getData({callerSkillId: "x", dataName: "status", params: {}})`. -/
def statusRequest : GetDataRequest :=
  { callerSkillId := some "x", dataName := some "status", params := some [] }

/-- Witness for C2: on the spec's scenario the dispatch returns
`{"data": {"ok": true}}` and invokes the `"status"` handler exactly
once. -/
theorem getData_invokes_registered_handler_witness :
    (handle_get_data statusServer statusRequest).1 =
      Except.ok [("data", Val.obj [("ok", Val.bool true)])] ∧
    (handle_get_data statusServer statusRequest).2 =
      [Event.dataHandler "status" 0 []] :=
  getData_invokes_registered_handler statusServer statusRequest statusEndpoint rfl rfl

/-! ### C1 -/

/-- C1 (amended): the inbound dispatch core performs no visibility check.
When the hook defers (or none is registered), a capability present in the
registry is dispatched to its registered handler regardless of its
visibility set and of the caller-supplied identity; in particular a
capability with an empty visibility set is still reachable, for both
`getData` and `callFunction`. -/
theorem dispatch_performs_no_visibility_check (s : Server)
    (dreq : GetDataRequest) (freq : CallFunctionRequest)
    (E : ExposedDataDefinition) (F : ExposedFunctionDefinition)
    (hdh : dataHookDefers s dreq) (hch : callHookDefers s freq)
    (hld : s.exposed_data.lookup (dreq.dataName.getD "") = some E)
    (_hvd : E.visibility = [])
    (hlf : s.exposed_functions.lookup (freq.functionName.getD "") = some F)
    (_hvf : F.visibility = []) :
    (handle_get_data s dreq).1 =
      Except.ok [("data", E.handler s.createContext (dreq.params.getD []))] ∧
    handlerEvents (handle_get_data s dreq).2 =
      [Event.dataHandler (dreq.dataName.getD "") s.createContext (dreq.params.getD [])] ∧
    (handle_call_function s freq).1 =
      Except.ok [("data", F.handler s.createContext (freq.arguments.getD []))] ∧
    handlerEvents (handle_call_function s freq).2 =
      [Event.funcHandler (freq.functionName.getD "") s.createContext (freq.arguments.getD [])] := by
  obtain ⟨hd1, hd2⟩ := handle_get_data_deferred s dreq hdh
  obtain ⟨hc1, hc2⟩ := handle_call_function_deferred s freq hch
  rw [hd1, hd2, hc1, hc2]
  simp [getDataFallback, callFunctionFallback, hld, hlf, handlerEvents, Event.isHandler]

/-- A registered data endpoint with an empty visibility set (private). -/
def secretEndpoint : ExposedDataDefinition :=
  { name := "secret"
    description := "private endpoint"
    visibility := []
    handler := fun _ _ => Val.str "classified" }

/-- A server exposing only the private `secretEndpoint`, with no hooks. -/
def secretServer : Server :=
  { exposed_data := [("secret", secretEndpoint)] }

/-- An inbound request from an external caller for the private endpoint. -/
def secretRequest : GetDataRequest :=
  { callerSkillId := some "other-skill", dataName := some "secret", params := some [] }

/-- Counterexample to C1 as stated: the endpoint's visibility set is
empty, yet the inbound `getData` dispatch invokes its handler and returns
its result — the handler invocation trace is non-empty. -/
theorem private_endpoint_invoked_cex :
    secretEndpoint.visibility = [] ∧
    (handle_get_data secretServer secretRequest).1 =
      Except.ok [("data", Val.str "classified")] ∧
    handlerEvents (handle_get_data secretServer secretRequest).2 ≠ [] := by
  refine ⟨rfl, rfl, ?_⟩
  have h : handlerEvents (handle_get_data secretServer secretRequest).2 =
      [Event.dataHandler "secret" 0 []] := rfl
  rw [h]
  exact List.cons_ne_nil _ _

/-- Witness for the amended C1: a server exposing the private data
endpoint and a private function still dispatches both. -/
def privateFunction : ExposedFunctionDefinition :=
  { name := "hidden-fn"
    description := "private function"
    visibility := []
    handler := fun _ _ => Val.nat 7 }

/-- Server with a private data endpoint and a private function, no hooks. -/
def privateServer : Server :=
  { exposed_data := [("secret", secretEndpoint)]
    exposed_functions := [("hidden-fn", privateFunction)] }

/-- The function-call request aimed at the private function. -/
def privateCallRequest : CallFunctionRequest :=
  { callerSkillId := some "other-skill", functionName := some "hidden-fn", arguments := some [] }

/-- Witness for the amended C1 at a concrete private server: both the
empty-visibility data endpoint and the empty-visibility function are
dispatched to their handlers. -/
theorem dispatch_performs_no_visibility_check_witness :
    (handle_get_data privateServer secretRequest).1 =
      Except.ok [("data", Val.str "classified")] ∧
    handlerEvents (handle_get_data privateServer secretRequest).2 =
      [Event.dataHandler "secret" 0 []] ∧
    (handle_call_function privateServer privateCallRequest).1 =
      Except.ok [("data", Val.nat 7)] ∧
    handlerEvents (handle_call_function privateServer privateCallRequest).2 =
      [Event.funcHandler "hidden-fn" 0 []] :=
  dispatch_performs_no_visibility_check privateServer secretRequest privateCallRequest
    secretEndpoint privateFunction
    (fun _ hh => Option.noConfusion hh) (fun _ hh => Option.noConfusion hh)
    rfl rfl rfl rfl

/-! ### C3 -/

/-- C3 (amended): for every name absent from the registry, with the hooks
deferring (or absent), `getData` fails with the error message
`"Unknown data endpoint: <dataName>"` and `callFunction` fails with
`"Unknown function: <functionName>"`, and in both cases no registered
handler is invoked. -/
theorem unknown_name_fails (s : Server) (dreq : GetDataRequest) (freq : CallFunctionRequest)
    (hdh : dataHookDefers s dreq) (hch : callHookDefers s freq)
    (hld : s.exposed_data.lookup (dreq.dataName.getD "") = none)
    (hlf : s.exposed_functions.lookup (freq.functionName.getD "") = none) :
    (handle_get_data s dreq).1 =
      Except.error ("Unknown data endpoint: " ++ dreq.dataName.getD "") ∧
    handlerEvents (handle_get_data s dreq).2 = [] ∧
    (handle_call_function s freq).1 =
      Except.error ("Unknown function: " ++ freq.functionName.getD "") ∧
    handlerEvents (handle_call_function s freq).2 = [] := by
  obtain ⟨hd1, hd2⟩ := handle_get_data_deferred s dreq hdh
  obtain ⟨hc1, hc2⟩ := handle_call_function_deferred s freq hch
  rw [hd1, hd2, hc1, hc2]
  simp [getDataFallback, callFunctionFallback, hld, hlf, handlerEvents]

/-- A server with empty registries and no hooks. -/
def emptyServer : Server := {}

/-- An inbound `getData` request for the unregistered name `"x"`. -/
def unknownDataRequest : GetDataRequest :=
  { callerSkillId := some "caller", dataName := some "x", params := some [] }

/-- An inbound `callFunction` request for the unregistered name `"x"`. -/
def unknownCallRequest : CallFunctionRequest :=
  { callerSkillId := some "caller", functionName := some "x", arguments := some [] }

/-- Counterexample to C3 as stated: at the unregistered name `"x"` the
dispatch errors carry the messages `"Unknown data endpoint: x"` and
`"Unknown function: x"`, and neither message carries the claimed text
`"UnknownEndpoint: x"` resp. `"UnknownFunction: x"`. -/
theorem unknown_name_message_cex :
    (handle_get_data emptyServer unknownDataRequest).1 =
      Except.error "Unknown data endpoint: x" ∧
    strCarries "UnknownEndpoint: x" "Unknown data endpoint: x" = false ∧
    (handle_call_function emptyServer unknownCallRequest).1 =
      Except.error "Unknown function: x" ∧
    strCarries "UnknownFunction: x" "Unknown function: x" = false := by
  refine ⟨rfl, by decide, rfl, by decide⟩

/-- Witness for the amended C3 at the concrete empty server. -/
theorem unknown_name_fails_witness :
    (handle_get_data emptyServer unknownDataRequest).1 =
      Except.error "Unknown data endpoint: x" ∧
    handlerEvents (handle_get_data emptyServer unknownDataRequest).2 = [] ∧
    (handle_call_function emptyServer unknownCallRequest).1 =
      Except.error "Unknown function: x" ∧
    handlerEvents (handle_call_function emptyServer unknownCallRequest).2 = [] :=
  unknown_name_fails emptyServer unknownDataRequest unknownCallRequest
    (fun _ hh => Option.noConfusion hh) (fun _ hh => Option.noConfusion hh) rfl rfl

/-! ### C4 -/

/-- C4: when the registered data-hook (resp. call-hook) returns a
non-null value `v` (resp. `w`) for a request, the dispatch result is
exactly `{"data": v}` (resp. `{"data": w}`), and the only invocation made
is the hook's — the registered handler is never invoked.  The statement
places no hypothesis on the registry, so the short-circuit happens before
any registry lookup (and no visibility check exists in the dispatch
core at all): the same conclusion holds whether or not the name is
registered, and whatever its visibility. -/
theorem hook_short_circuits_dispatch (s : Server)
    (dreq : GetDataRequest) (freq : CallFunctionRequest)
    (hd hc : HookFn) (v w : Val)
    (hdh : dataHookOf s = some hd)
    (hdv : hd s.createContext (dreq.callerSkillId.getD "") (dreq.dataName.getD "")
      (dreq.params.getD []) = some v)
    (hch : callHookOf s = some hc)
    (hcv : hc s.createContext (freq.callerSkillId.getD "") (freq.functionName.getD "")
      (freq.arguments.getD []) = some w) :
    handle_get_data s dreq =
      (Except.ok [("data", v)],
       [Event.hookData s.createContext (dreq.callerSkillId.getD "") (dreq.dataName.getD "")
         (dreq.params.getD [])]) ∧
    handle_call_function s freq =
      (Except.ok [("data", w)],
       [Event.hookCall s.createContext (freq.callerSkillId.getD "") (freq.functionName.getD "")
         (freq.arguments.getD [])]) := by
  constructor
  · simp [handle_get_data, hdh, hdv]
  · simp [handle_call_function, hch, hcv]

/-- The spec's scenario function `add-note` (its real handler, which must
not run when a hook short-circuits). -/
def addNoteFunction : ExposedFunctionDefinition :=
  { name := "add-note"
    description := "Add a note"
    visibility := [Vis.skills]
    handler := fun _ _ => Val.obj [("note_id", Val.str "note_1")] }

/-- Hooks that always short-circuit with `{"short": 1}`. -/
def shortHooks : Hooks :=
  { on_interop_data := some fun _ _ _ _ => some (Val.obj [("short", Val.nat 1)])
    on_interop_call := some fun _ _ _ _ => some (Val.obj [("short", Val.nat 1)]) }

/-- The spec's scenario server: `add-note` registered, hooks returning
`{"short": 1}` unconditionally. -/
def shortServer : Server :=
  { hooks := some shortHooks
    exposed_functions := [("add-note", addNoteFunction)] }

/-- The scenario request
`callFunction({callerSkillId: "x", functionName: "add-note", arguments: {title: "t"}})`. -/
def addNoteRequest : CallFunctionRequest :=
  { callerSkillId := some "x"
    functionName := some "add-note"
    arguments := some [("title", Val.str "t")] }

/-- A `getData` request against the same short-circuiting server. -/
def shortDataRequest : GetDataRequest :=
  { callerSkillId := some "x", dataName := some "whatever", params := some [] }

/-- Witness for C4, the spec's scenario: the result is
`{"data": {"short": 1}}` and the `add-note` handler is never invoked
(the trace holds only the hook event). -/
theorem hook_short_circuits_dispatch_witness :
    handle_get_data shortServer shortDataRequest =
      (Except.ok [("data", Val.obj [("short", Val.nat 1)])],
       [Event.hookData 0 "x" "whatever" []]) ∧
    handle_call_function shortServer addNoteRequest =
      (Except.ok [("data", Val.obj [("short", Val.nat 1)])],
       [Event.hookCall 0 "x" "add-note" [("title", Val.str "t")]]) :=
  hook_short_circuits_dispatch shortServer shortDataRequest addNoteRequest
    (fun _ _ _ _ => some (Val.obj [("short", Val.nat 1)]))
    (fun _ _ _ _ => some (Val.obj [("short", Val.nat 1)]))
    (Val.obj [("short", Val.nat 1)]) (Val.obj [("short", Val.nat 1)])
    rfl rfl rfl rfl

/-! ### C5 -/

/-- C5: when the registered hook returns null on a request, dispatch
(`getData` and `callFunction`) produces the same result, the same
failure, and the same registered-handler invocations as the same server
with no hook registered at all. -/
theorem hook_null_equiv_no_hook (s : Server)
    (dreq : GetDataRequest) (freq : CallFunctionRequest)
    (hdh : dataHookDefers s dreq) (hch : callHookDefers s freq) :
    (handle_get_data s dreq).1 = (handle_get_data (noHooks s) dreq).1 ∧
    handlerEvents (handle_get_data s dreq).2 =
      handlerEvents (handle_get_data (noHooks s) dreq).2 ∧
    (handle_call_function s freq).1 = (handle_call_function (noHooks s) freq).1 ∧
    handlerEvents (handle_call_function s freq).2 =
      handlerEvents (handle_call_function (noHooks s) freq).2 := by
  obtain ⟨hd1, hd2⟩ := handle_get_data_deferred s dreq hdh
  obtain ⟨hc1, hc2⟩ := handle_call_function_deferred s freq hch
  have hgd : handle_get_data (noHooks s) dreq =
      getDataFallback s (dreq.dataName.getD "") (dreq.params.getD []) [] := rfl
  have hcf : handle_call_function (noHooks s) freq =
      callFunctionFallback s (freq.functionName.getD "") (freq.arguments.getD []) [] := rfl
  rw [hd1, hd2, hc1, hc2, hgd, hcf]
  exact ⟨rfl, rfl, rfl, rfl⟩

/-- Hooks that always defer (return `None`), like the kitchen-sink
example hooks. -/
def deferHooks : Hooks :=
  { on_interop_data := some fun _ _ _ _ => none
    on_interop_call := some fun _ _ _ _ => none }

/-- The status server with always-deferring hooks installed. -/
def deferServer : Server :=
  { statusServer with hooks := some deferHooks }

/-- Witness for C5: on the `"status"` endpoint, the deferring-hook server
and its hookless counterpart agree on result and handler invocations,
for `getData` and for (an unregistered) `callFunction`. -/
theorem hook_null_equiv_no_hook_witness :
    (handle_get_data deferServer statusRequest).1 =
      (handle_get_data (noHooks deferServer) statusRequest).1 ∧
    handlerEvents (handle_get_data deferServer statusRequest).2 =
      handlerEvents (handle_get_data (noHooks deferServer) statusRequest).2 ∧
    (handle_call_function deferServer unknownCallRequest).1 =
      (handle_call_function (noHooks deferServer) unknownCallRequest).1 ∧
    handlerEvents (handle_call_function deferServer unknownCallRequest).2 =
      handlerEvents (handle_call_function (noHooks deferServer) unknownCallRequest).2 :=
  hook_null_equiv_no_hook deferServer statusRequest unknownCallRequest
    (fun h hh => by
      simp [dataHookOf, deferServer, deferHooks] at hh
      rw [← hh])
    (fun h hh => by
      simp [callHookOf, deferServer, deferHooks] at hh
      rw [← hh])

/-! ### C6 -/

theorem dataEntryInfo_keys (d : ExposedDataDefinition) :
    entryKeys (dataEntryInfo d) = ["name", "description", "visibility", "schema"] := rfl

theorem functionEntryInfo_keys (f : ExposedFunctionDefinition) :
    entryKeys (functionEntryInfo f) =
      ["name", "description", "visibility", "parameters", "returns"] := rfl

/-- C6: for every registry state, the `listExposed` response is exactly
one discovery entry per registered data endpoint (carrying its name,
description, visibility and schema) and one per registered function
(carrying its name, description, visibility, parameters and returns),
nothing added or omitted, and no entry has a `handler` field: each
entry's keys are exactly the five resp. four metadata keys, and
`"handler"` is among none of them. -/
theorem listExposed_exact_and_handler_free (s : Server) :
    (handle_list_exposed s).data = (s.exposed_data.map Prod.snd).map dataEntryInfo ∧
    (handle_list_exposed s).functions =
      (s.exposed_functions.map Prod.snd).map functionEntryInfo ∧
    (handle_list_exposed s).data.map entryKeys =
      s.exposed_data.map (fun _ => ["name", "description", "visibility", "schema"]) ∧
    (handle_list_exposed s).functions.map entryKeys =
      s.exposed_functions.map
        (fun _ => ["name", "description", "visibility", "parameters", "returns"]) ∧
    ((handle_list_exposed s).data.all fun e => !(entryKeys e).contains "handler") = true ∧
    ((handle_list_exposed s).functions.all fun e => !(entryKeys e).contains "handler") = true := by
  refine ⟨rfl, rfl, ?_, ?_, ?_, ?_⟩
  · simp only [handle_list_exposed, List.map_map]
    exact List.map_congr_left fun a _ => rfl
  · simp only [handle_list_exposed, List.map_map]
    exact List.map_congr_left fun a _ => rfl
  · simp only [handle_list_exposed, List.all_eq_true]
    intro e he
    obtain ⟨d, _, rfl⟩ := List.mem_map.1 he
    rfl
  · simp only [handle_list_exposed, List.all_eq_true]
    intro e he
    obtain ⟨f, _, rfl⟩ := List.mem_map.1 he
    rfl

/-! ### C7 -/

theorem leadsWith_self (l : List Char) : leadsWith l l = true := by
  induction l with
  | nil => rfl
  | cons c cs ih => simp [leadsWith, ih]

theorem strCarries_self (s : String) : strCarries s s = true := by
  unfold strCarries
  cases h : s.toList with
  | nil => rfl
  | cons c cs => simp [containsSub, leadsWith_self]

/-- C7 (amended): `request-skill-data` and `call-skill-function` catch a
raising collaborator and return a structured error result
(`is_error = true`) whose content is — hence carries — the
collaborator's error text; the three discovery tools (`list-skills`,
`list-skill-data`, `list-skill-functions`) have no handler of their own
and let the collaborator's exception propagate to the tool's caller. -/
theorem outbound_tool_error_surface (host : HostServer) (la ra ca : ToolArgs)
    (e₁ e₂ e₃ e₄ e₅ : String)
    (h1 : host.list_skills = Except.error e₁)
    (h2 : host.list_exposed_data la.skill_id = Except.error e₂)
    (h3 : host.list_exposed_functions la.skill_id = Except.error e₃)
    (hra1 : strFalsy (ra.skill_id.getD "") = false)
    (hra2 : strFalsy (ra.data_name.getD "") = false)
    (h4 : host.request_skill_data (ra.skill_id.getD "") (ra.data_name.getD "") ra.params =
      Except.error e₄)
    (hca1 : strFalsy (ca.skill_id.getD "") = false)
    (hca2 : strFalsy (ca.function_name.getD "") = false)
    (h5 : host.call_skill_function (ca.skill_id.getD "") (ca.function_name.getD "") ca.arguments =
      Except.error e₅) :
    (list_skills_tool host la).1 = Except.error e₁ ∧
    (list_skill_data_tool host la).1 = Except.error e₂ ∧
    (list_skill_functions_tool host la).1 = Except.error e₃ ∧
    (request_skill_data_tool host ra).1 =
      Except.ok { content := e₄, is_error := true } ∧
    strCarries e₄ e₄ = true ∧
    (call_skill_function_tool host ca).1 =
      Except.ok { content := e₅, is_error := true } ∧
    strCarries e₅ e₅ = true := by
  refine ⟨?_, ?_, ?_, ?_, strCarries_self e₄, ?_, strCarries_self e₅⟩
  · simp [list_skills_tool, h1]
  · simp [list_skill_data_tool, h2]
  · simp [list_skill_functions_tool, h3]
  · simp [request_skill_data_tool, hra1, hra2, h4]
  · simp [call_skill_function_tool, hca1, hca2, h5]

/-- A collaborator every method of which raises, with distinct error
texts. -/
def boomHost : HostServer :=
  { list_skills := Except.error "ls boom"
    list_exposed_data := fun _ => Except.error "led boom"
    list_exposed_functions := fun _ => Except.error "lef boom"
    request_skill_data := fun _ _ _ => Except.error "rsd boom"
    call_skill_function := fun _ _ _ => Except.error "csf boom" }

/-- Arguments with the required fields of `request-skill-data` present. -/
def requestArgs : ToolArgs :=
  { skill_id := some "target", data_name := some "status" }

/-- Arguments with the required fields of `call-skill-function` present. -/
def callArgs : ToolArgs :=
  { skill_id := some "target", function_name := some "add-note" }

/-- Counterexample to C7 as stated: against the raising collaborator,
`list-skills` does not return a structured result at all — the
collaborator's exception propagates out of the tool. -/
theorem list_skills_propagates_cex :
    returnedResult (list_skills_tool boomHost {}) = false ∧
    (list_skills_tool boomHost {}).1 = Except.error "ls boom" :=
  ⟨rfl, rfl⟩

/-- Witness for the amended C7 at the raising collaborator: the two
invocation tools return `is_error` results carrying the collaborator's
text, the three discovery tools propagate. -/
theorem outbound_tool_error_surface_witness :
    (list_skills_tool boomHost {}).1 = Except.error "ls boom" ∧
    (list_skill_data_tool boomHost {}).1 = Except.error "led boom" ∧
    (list_skill_functions_tool boomHost {}).1 = Except.error "lef boom" ∧
    (request_skill_data_tool boomHost requestArgs).1 =
      Except.ok { content := "rsd boom", is_error := true } ∧
    strCarries "rsd boom" "rsd boom" = true ∧
    (call_skill_function_tool boomHost callArgs).1 =
      Except.ok { content := "csf boom", is_error := true } ∧
    strCarries "csf boom" "csf boom" = true :=
  outbound_tool_error_surface boomHost {} requestArgs callArgs
    "ls boom" "led boom" "lef boom" "rsd boom" "csf boom"
    rfl rfl rfl rfl rfl rfl rfl rfl rfl

/-! ### C8 -/

/-- C8: an invocation of `request-skill-data` missing `skill_id` or
`data_name`, or of `call-skill-function` missing `skill_id` or
`function_name`, returns the locally-generated error result and makes no
call to the host collaborator (the collaborator call trace is empty). -/
theorem missing_required_args_no_host_call (host : HostServer) (a b : ToolArgs)
    (ha : a.skill_id = none ∨ a.data_name = none)
    (hb : b.skill_id = none ∨ b.function_name = none) :
    request_skill_data_tool host a =
      (Except.ok { content := "skill_id and data_name are required", is_error := true }, []) ∧
    call_skill_function_tool host b =
      (Except.ok { content := "skill_id and function_name are required", is_error := true },
       []) := by
  constructor
  · rcases ha with h | h <;> simp [request_skill_data_tool, h, strFalsy]
  · rcases hb with h | h <;> simp [call_skill_function_tool, h, strFalsy]

/-- Witness for C8: with `data_name` resp. `function_name` omitted (and
even against the raising collaborator), both tools return their local
error result without any collaborator call. -/
theorem missing_required_args_no_host_call_witness :
    request_skill_data_tool boomHost { skill_id := some "target" } =
      (Except.ok { content := "skill_id and data_name are required", is_error := true }, []) ∧
    call_skill_function_tool boomHost { skill_id := some "target" } =
      (Except.ok { content := "skill_id and function_name are required", is_error := true },
       []) :=
  missing_required_args_no_host_call boomHost
    { skill_id := some "target" } { skill_id := some "target" }
    (Or.inr rfl) (Or.inr rfl)

/-! ### C9 -/

/-- C9 (amended): constructing an `InteropSchema` never fails — in
particular a declaration whose data endpoints carry duplicate names is
accepted silently at build time (there is no duplicate-name validation). -/
theorem interop_schema_build_never_fails (d : List ExposedDataDefinition)
    (f : List ExposedFunctionDefinition)
    (_hdup : namesUnique (d.map ExposedDataDefinition.name) = false) :
    mkInteropSchema d f = Except.ok { exposed_data := d, exposed_functions := f } := rfl

/-- A data endpoint named `"a"`. -/
def dupEndpointA : ExposedDataDefinition :=
  { name := "a", description := "first", handler := fun _ _ => Val.nat 1 }

/-- A second, distinct data endpoint also named `"a"`. -/
def dupEndpointB : ExposedDataDefinition :=
  { name := "a", description := "second", handler := fun _ _ => Val.nat 2 }

/-- Counterexample to C9 as stated: a capability-set declaration with two
data endpoints of the same name `"a"` is not rejected — construction
succeeds. -/
theorem duplicate_names_accepted_cex :
    namesUnique ([dupEndpointA, dupEndpointB].map ExposedDataDefinition.name) = false ∧
    buildSucceeded (mkInteropSchema [dupEndpointA, dupEndpointB] []) = true :=
  ⟨by decide, rfl⟩

/-- Witness for the amended C9 at the concrete duplicate declaration. -/
theorem interop_schema_build_never_fails_witness :
    namesUnique ([dupEndpointA, dupEndpointB].map ExposedDataDefinition.name) = false ∧
    mkInteropSchema [dupEndpointA, dupEndpointB] [] =
      Except.ok { exposed_data := [dupEndpointA, dupEndpointB], exposed_functions := [] } :=
  ⟨by decide, interop_schema_build_never_fails [dupEndpointA, dupEndpointB] [] (by decide)⟩

/-! ### C10 -/

/-- C10: on an inbound `getData` whose payload omits `params` (resp.
`callFunction` omitting `arguments`) and omits `callerSkillId`, the hook
is invoked with caller identity `""` and payload `{}` (the empty dict,
not a null), and — when the hook defers — the registered handler is
likewise invoked with the empty dict. -/
theorem omitted_fields_default_to_empty (s : Server) (hd hc : HookFn)
    (E : ExposedDataDefinition) (F : ExposedFunctionDefinition) (dn fn : String)
    (hdh : dataHookOf s = some hd)
    (hdn : hd s.createContext "" dn [] = none)
    (hld : s.exposed_data.lookup dn = some E)
    (hch : callHookOf s = some hc)
    (hcn : hc s.createContext "" fn [] = none)
    (hlf : s.exposed_functions.lookup fn = some F) :
    handle_get_data s { dataName := some dn } =
      (Except.ok [("data", E.handler s.createContext [])],
       [Event.hookData s.createContext "" dn [],
        Event.dataHandler dn s.createContext []]) ∧
    handle_call_function s { functionName := some fn } =
      (Except.ok [("data", F.handler s.createContext [])],
       [Event.hookCall s.createContext "" fn [],
        Event.funcHandler fn s.createContext []]) := by
  constructor
  · simp [handle_get_data, hdh, hdn, getDataFallback, hld]
  · simp [handle_call_function, hch, hcn, callFunctionFallback, hlf]

/-- The status server with deferring hooks, for the C10 witness. -/
def omittedServer : Server :=
  { hooks := some deferHooks
    exposed_data := [("status", statusEndpoint)]
    exposed_functions := [("add-note", addNoteFunction)] }

/-- Witness for C10: requests omitting `callerSkillId` and
`params`/`arguments` reach the hook with `""` and `{}` and the handlers
with `{}`. -/
theorem omitted_fields_default_to_empty_witness :
    handle_get_data omittedServer { dataName := some "status" } =
      (Except.ok [("data", Val.obj [("ok", Val.bool true)])],
       [Event.hookData 0 "" "status" [], Event.dataHandler "status" 0 []]) ∧
    handle_call_function omittedServer { functionName := some "add-note" } =
      (Except.ok [("data", Val.obj [("note_id", Val.str "note_1")])],
       [Event.hookCall 0 "" "add-note" [], Event.funcHandler "add-note" 0 []]) :=
  omitted_fields_default_to_empty omittedServer
    (fun _ _ _ _ => none) (fun _ _ _ _ => none)
    statusEndpoint addNoteFunction "status" "add-note"
    rfl rfl rfl rfl rfl rfl

end Interop
